import Mathlib

/-!
Verification of the Weyra conversational-AI orchestration core.

This file gives a shallow embedding of the orchestration core found in
`src/utils/WeryaAI.ts`: the tool dispatcher and its eight handlers, the
multi-message reply pacer with its cooldown gate, the bounded history store
operations, and the model-invocation loop.  External collaborators (the
language model, the chat platform, the relational-store engine, the weather
service, the locale/timezone formatter) are modelled as oracle functions
supplied in an environment record; the handlers' own control flow, state
updates and emitted side effects are translated directly from the source.
Timestamps are naturals (milliseconds); a JS `Date.now()` read is modelled by
a single `now` field of the threaded state.
-/

namespace Weyra

/-- ceiling division on naturals; embeds `Math.ceil(a / b)` for the
nonnegative quantities appearing in the cooldown message. -/
def ceilDiv (a b : Nat) : Nat := (a + b - 1) / b

/-- one row of the `message_history` table (spec: ConversationTurn). -/
structure HistoryRow where
  id : Nat
  user_id : String
  channel_id : String
  role : String
  content : String
  created_at : Nat
deriving DecidableEq

/-- one row of the `memories` table (spec: Memory). -/
structure MemoryRow where
  id : Nat
  user_id : String
  keywords : String
  content : String
deriving DecidableEq

/-- an entry of the in-process cooldown map (source: `interface CooldownEntry`). -/
structure CooldownEntry where
  userId : String
  lastUsed : Nat
deriving DecidableEq

/-- observable side effects of the tool handlers: platform sends, store
reads/writes, platform directory reads and outbound HTTP requests. -/
inductive Effect where
  | sleep (ms : Nat)
  | platformReply (content : Option String) (delivered : Bool)
  | dbWriteHistory (user channel role : String) (content : Option String)
  | dbInsertMemory (user : String) (keywords content : Option String)
  | dbSearchMemory (user : String) (keywords : Option String)
  | dbDeleteHistory (user channel : String)
  | dbPruneHistory (user channel : String) (keep : Nat)
  | platformFetchUser (id : String)
  | httpGet (url : String)
deriving DecidableEq

/-- mutable state threaded through the handlers: the `message_history`
table, the next SERIAL id, the in-process cooldown map, and the clock. -/
structure ToolState where
  history : List HistoryRow
  nextHistoryId : Nat
  cooldowns : List (String × CooldownEntry)
  now : Nat
deriving DecidableEq

/-- `Map.get` on the cooldown association list (newest binding first). -/
def mapGet (m : List (String × CooldownEntry)) (k : String) : Option CooldownEntry :=
  (m.find? (fun p => p.fst == k)).map (fun p => p.snd)

/-- `Map.set` on the cooldown association list: shadowing cons. -/
def mapSet (m : List (String × CooldownEntry)) (k : String) (v : CooldownEntry) :
    List (String × CooldownEntry) :=
  (k, v) :: m

/-- a raw entry of the `reply_to_user` messages array: a JSON string, or an
object with a `content` field and an optional `cooldown` field. -/
inductive RawMsg where
  | str (s : String)
  | obj (content : Option String) (cooldown : Option Nat)
deriving DecidableEq

/-- the `reply_to_user` messages payload: a bare string or an array.  Any
other JSON shape takes the same rejection branch as an absent field. -/
inductive MessagesPayload where
  | str (s : String)
  | arr (l : List RawMsg)
deriving DecidableEq

/-- a parsed JSON argument object of a tool call; absent fields are `none`. -/
structure Args where
  messages : Option MessagesPayload := none
  timeout : Option Nat := none
  keywords : Option String := none
  content : Option String := none
  user_id : Option String := none
  timezone : Option String := none
  city : Option String := none
  confirm : Option Bool := none
deriving DecidableEq

/-- a platform user record as exposed by the chat platform. -/
structure UserRec where
  id : String
  username : String
  discriminator : String
  avatar : Option String
  bot : Bool
deriving DecidableEq

/-- a platform guild record as exposed by the chat platform. -/
structure GuildRec where
  id : String
  name : String
  description : Option String
  memberCount : Nat
  ownerId : String
  verificationLevel : Nat
  premiumTier : Nat
  premiumSubscriptionCount : Nat
deriving DecidableEq

/-- the tool execution context: the invoking user and the channel. -/
structure Ctx where
  user : UserRec
  channelId : String
deriving DecidableEq

/-- the weather service response: HTTP status plus the three JSON fields the
handler projects out (kept abstract as strings). -/
structure WeatherData where
  ok : Bool
  status : Nat
  current_condition : Option String
  weather : Option String
  nearest_area : Option String
deriving DecidableEq

/-- oracles for the external collaborators: per-send platform outcome,
relational-store answers for the memory table, platform user directory,
guild context, the timezone formatter, and the weather HTTP endpoint. -/
structure Env where
  sendFail : Nat → Option String
  memSearch : String → Option String → Except String (List MemoryRow)
  memInsert : Option String → Option String → Except String Nat
  fetchUser : String → Except String UserRec
  ctxGuild : Option GuildRec
  formatTime : Option String → Except String String
  nowISO : String
  http : String → Except String WeatherData

/-- JS string coercion of a possibly-undefined value: template literals and
string concatenation render `undefined` as the text "undefined". -/
def jsToString : Option String → String
  | some s => s
  | none => "undefined"

/-- default per-entry delay of the reply pacer: 0 for the first entry,
1000ms for every later one (source lines 371 and 375). -/
def defaultCooldown (i : Nat) : Nat := if 0 < i then 1000 else 0

/-- a normalized reply message: content plus resolved delay. -/
structure NormMsg where
  content : Option String
  cooldown : Nat
deriving DecidableEq

/-- normalization of one array entry at index `i` (source lines 369-378).
The object branch embeds `msg.cooldown || (index > 0 ? 1000 : 0)`: a JS `||`
falls through on the falsy value 0, so an explicit 0 is replaced by the
default. -/
def normalizeOne (i : Nat) : RawMsg → NormMsg
  | .str s => ⟨some s, defaultCooldown i⟩
  | .obj c cd =>
      ⟨c, match cd with
          | some v => if v = 0 then defaultCooldown i else v
          | none => defaultCooldown i⟩

/-- normalization of the whole payload (source lines 361-378). -/
def normalizeMessages : MessagesPayload → List NormMsg
  | .str s => [⟨some s, 0⟩]
  | .arr l => l.enum.map (fun p => normalizeOne p.fst p.snd)

/-- embeds `saveMessageToHistory` (source lines 571-580): best-effort insert
into `message_history`; the store rejects a null content (NOT NULL) and the
error is swallowed, so in that case no row is added. -/
def saveMessageToHistory (ctx : Ctx) (st : ToolState) (role : String) (content : Option String) :
    ToolState × List Effect :=
  match content with
  | some ct =>
      ({ st with
          history := st.history ++
            [⟨st.nextHistoryId, ctx.user.id, ctx.channelId, role, ct, st.now⟩],
          nextHistoryId := st.nextHistoryId + 1 },
       [Effect.dbWriteHistory ctx.user.id ctx.channelId role (some ct)])
  | none => (st, [Effect.dbWriteHistory ctx.user.id ctx.channelId role none])

/-- embeds the send loop of `replyToUser` (source lines 402-415): for each
entry, sleep its delay when the index is positive and the delay nonzero,
attempt the platform send, persist the sent content as an assistant turn,
and accumulate one status string; a platform send failure is rethrown,
keeping the state reached so far. -/
def sendLoop (env : Env) (ctx : Ctx) :
    Nat → List NormMsg → ToolState → Except String (List String) × ToolState × List Effect
  | _, [], st => (.ok [], st, [])
  | i, m :: rest, st =>
    let sleepEffs : List Effect :=
      if 0 < i ∧ 0 < m.cooldown then [Effect.sleep m.cooldown] else []
    match env.sendFail i with
    | some e => (.error e, st, sleepEffs ++ [Effect.platformReply m.content false])
    | none =>
      let s1 := saveMessageToHistory ctx st "assistant" m.content
      let r := sendLoop env ctx (i + 1) rest s1.1
      (r.1.map (fun rs =>
          ("Message " ++ toString (i + 1) ++ " sent successfully (cooldown: " ++
            toString m.cooldown ++ "ms)") :: rs),
       r.2.1,
       sleepEffs ++ [Effect.platformReply m.content true] ++ s1.2 ++ r.2.2)

/-- embeds the multi-message cooldown gate of `replyToUser` (source lines
383-394): with more than one normalized entry, look up `reply_<user>`; if
less than 2000ms have elapsed, fail reporting `ceil(remaining / 1000)`
seconds; otherwise record the present time. -/
def checkCooldownGate (st : ToolState) (uid : String) (count : Nat) : Except String ToolState :=
  if 1 < count then
    match mapGet st.cooldowns ("reply_" ++ uid) with
    | some e =>
      if st.now - e.lastUsed < 2000 then
        .error ("Please wait " ++ toString (ceilDiv (2000 - (st.now - e.lastUsed)) 1000) ++
          " seconds before sending multiple messages again.")
      else .ok { st with cooldowns := mapSet st.cooldowns ("reply_" ++ uid) ⟨uid, st.now⟩ }
    | none => .ok { st with cooldowns := mapSet st.cooldowns ("reply_" ++ uid) ⟨uid, st.now⟩ }
  else .ok st

/-- successful `reply_to_user` result. -/
structure ReplyOk where
  messages_sent : Nat
  results : List String
deriving DecidableEq

/-- embeds `replyToUser` (source lines 356-422): destructure the payload
(`timeout` defaulting to 0), normalize or reject it, run the cooldown gate,
then sleep the initial timeout and run the send loop. -/
def replyToUser (env : Env) (ctx : Ctx) (args : Args) (st : ToolState) :
    Except String ReplyOk × ToolState × List Effect :=
  let timeout := args.timeout.getD 0
  match args.messages with
  | none => (.error "Messages must be a string or array of message objects", st, [])
  | some payload =>
    let normalized := normalizeMessages payload
    match checkCooldownGate st ctx.user.id normalized.length with
    | .error e => (.error e, st, [])
    | .ok st1 =>
      let initEffs : List Effect := if 0 < timeout then [Effect.sleep timeout] else []
      let r := sendLoop env ctx 0 normalized st1
      (r.1.map (fun results => ReplyOk.mk normalized.length results), r.2.1, initEffs ++ r.2.2)

/-- successful `get_memory` result. -/
structure MemGetOk where
  found : Bool
  memories : List MemoryRow
  search_keywords : Option String
deriving DecidableEq

/-- embeds `getMemory` (source lines 424-445): run the keyword search query
(the full-text engine is the store oracle) with no validation of the
required `keywords` field; an absent keyword string is passed through as a
null parameter. -/
def getMemory (env : Env) (ctx : Ctx) (args : Args) (st : ToolState) :
    Except String MemGetOk × ToolState × List Effect :=
  let uid := args.user_id.getD ctx.user.id
  match env.memSearch uid args.keywords with
  | .error e => (.error e, st, [Effect.dbSearchMemory uid args.keywords])
  | .ok rows => (.ok ⟨!rows.isEmpty, rows, args.keywords⟩, st, [Effect.dbSearchMemory uid args.keywords])

/-- successful `save_memory` result. -/
structure MemSaveOk where
  memory_id : Nat
  keywords : Option String
  content_length : Nat
deriving DecidableEq

/-- embeds `saveMemory` (source lines 447-467): issue the INSERT (store
oracle decides id or constraint failure) with no validation of the required
`keywords`/`content` fields; the result echo reads `content.length`, which
on an absent content is a JS TypeError. -/
def saveMemory (env : Env) (ctx : Ctx) (args : Args) (st : ToolState) :
    Except String MemSaveOk × ToolState × List Effect :=
  let uid := args.user_id.getD ctx.user.id
  let effs := [Effect.dbInsertMemory uid args.keywords args.content]
  match env.memInsert args.keywords args.content with
  | .error e => (.error e, st, effs)
  | .ok mid =>
    match args.content with
    | some ct => (.ok ⟨mid, args.keywords, ct.length⟩, st, effs)
    | none => (.error "TypeError: Cannot read properties of undefined", st, effs)

/-- Discord snowflake creation time: `parseInt(id) / 4194304 + 1420070400000`
(source line 487); ISO rendering of the resulting instant is presentation
only and is kept as the raw millisecond value. -/
def snowflakeCreatedAt (id : String) : Nat := (id.toNat?.getD 0) / 4194304 + 1420070400000

/-- successful `get_user_info` result. -/
structure UserInfoOk where
  id : String
  username : String
  discriminator : String
  avatar : Option String
  bot : Bool
  created_at : Nat
deriving DecidableEq

/-- projection of a platform user record into the handler result. -/
def userInfoOf (u : UserRec) : UserInfoOk :=
  ⟨u.id, u.username, u.discriminator, u.avatar, u.bot, snowflakeCreatedAt u.id⟩

/-- embeds `getUserInfo` (source lines 469-493): the context user is served
locally; any other id goes to the platform directory. -/
def getUserInfo (env : Env) (ctx : Ctx) (args : Args) (st : ToolState) :
    Except String UserInfoOk × ToolState × List Effect :=
  let uid := args.user_id.getD ctx.user.id
  if uid = ctx.user.id then (.ok (userInfoOf ctx.user), st, [])
  else
    match env.fetchUser uid with
    | .error e => (.error e, st, [Effect.platformFetchUser uid])
    | .ok u => (.ok (userInfoOf u), st, [Effect.platformFetchUser uid])

/-- successful `get_time` result. -/
structure TimeOk where
  timezone : Option String
  current_time : String
  utc_time : String
  timestamp : Nat
deriving DecidableEq

/-- embeds `getTime` (source lines 495-521): format via the locale oracle
with no validation of the required `timezone` field; an absent timezone is
passed through (the formatter then falls back to the host default). -/
def getTime (env : Env) (args : Args) (st : ToolState) :
    Except String TimeOk × ToolState × List Effect :=
  match env.formatTime args.timezone with
  | .error e => (.error e, st, [])
  | .ok t => (.ok ⟨args.timezone, t, env.nowISO, st.now⟩, st, [])

/-- hexadecimal digit characters used by percent-encoding. -/
def hexDigit (n : Nat) : Char := ("0123456789ABCDEF".toList).getD n '0'

/-- is this character left unescaped by JS `encodeURIComponent`? -/
def uriUnreserved (c : Char) : Bool :=
  c.isAlphanum || c = '-' || c = '_' || c = '.' || c = '!' || c = '~' || c = '*' ||
    c.toNat = 39 || c = '(' || c = ')'

/-- percent-encoding of one character, per UTF-8 byte. -/
def encChar (c : Char) : String :=
  if uriUnreserved c then String.singleton c
  else
    String.join (((String.singleton c).toUTF8.data.toList).map
      (fun b => "%" ++ String.mk [hexDigit (b.toNat / 16), hexDigit (b.toNat % 16)]))

/-- JS `encodeURIComponent`. -/
def encodeURIComponent (s : String) : String := String.join (s.toList.map encChar)

/-- successful `get_weather` result. -/
structure WeatherOk where
  city : Option String
  current_condition : Option String
  weather : Option String
  nearest_area : Option String
deriving DecidableEq

/-- embeds `getWeather` (source lines 523-545): build the wttr.in URL from
the unvalidated `city` field (an absent city renders as the literal text
"undefined"), perform the HTTP GET, fail on a non-success status. -/
def getWeather (env : Env) (args : Args) (st : ToolState) :
    Except String WeatherOk × ToolState × List Effect :=
  let url := "https://wttr.in/" ++ encodeURIComponent (jsToString args.city) ++ "?format=j1"
  match env.http url with
  | .error e => (.error e, st, [Effect.httpGet url])
  | .ok resp =>
    if resp.ok then
      (.ok ⟨args.city, resp.current_condition, resp.weather, resp.nearest_area⟩, st,
        [Effect.httpGet url])
    else (.error ("wttr.in error: " ++ toString resp.status), st, [Effect.httpGet url])

/-- successful `get_server_info` result. -/
structure ServerInfoOk where
  id : String
  name : String
  description : Option String
  member_count : Nat
  created_at : Nat
  owner_id : String
  verification_level : Nat
  boost_level : Nat
  boost_count : Nat
deriving DecidableEq

/-- embeds `getServerInfo` (source lines 547-569): outside a guild the
handler fails; inside, it projects the guild metadata. -/
def getServerInfo (env : Env) (st : ToolState) :
    Except String ServerInfoOk × ToolState × List Effect :=
  match env.ctxGuild with
  | none => (.error "This command can only be used in a server", st, [])
  | some g =>
    (.ok ⟨g.id, g.name, g.description, g.memberCount, snowflakeCreatedAt g.id, g.ownerId,
        g.verificationLevel, g.premiumTier, g.premiumSubscriptionCount⟩, st, [])

/-- does this history row belong to the (user, channel) pair? -/
def pairMatch (u c : String) (r : HistoryRow) : Bool :=
  r.user_id == u && r.channel_id == c

/-- successful `clear_history` result. -/
structure ClearOk where
  messages_deleted : Nat
  user_id : String
  channel_id : String
deriving DecidableEq

/-- embeds `clearHistory` (source lines 615-640): without `confirm` set to
true the handler fails before touching the store; with it, all rows of the
(user, channel) pair are deleted and their count returned. -/
def clearHistory (ctx : Ctx) (args : Args) (st : ToolState) :
    Except String ClearOk × ToolState × List Effect :=
  match args.confirm with
  | some true =>
    (.ok ⟨(st.history.filter (pairMatch ctx.user.id ctx.channelId)).length, ctx.user.id,
        ctx.channelId⟩,
     { st with history := st.history.filter (fun r => !(pairMatch ctx.user.id ctx.channelId r)) },
     [Effect.dbDeleteHistory ctx.user.id ctx.channelId])
  | _ => (.error "History clearing requires confirmation", st, [])

/-- descending insertion by `created_at`; together with `sortDesc` this
embeds the query clause `ORDER BY created_at DESC`. -/
def insertDesc (r : HistoryRow) : List HistoryRow → List HistoryRow
  | [] => [r]
  | x :: xs => if x.created_at ≤ r.created_at then r :: x :: xs else x :: insertDesc r xs

/-- descending sort by `created_at` (insertion sort). -/
def sortDesc : List HistoryRow → List HistoryRow
  | [] => []
  | x :: xs => insertDesc x (sortDesc xs)

/-- embeds `getMessageHistory` (source lines 582-596): SELECT the rows of
the pair ORDER BY created_at DESC LIMIT `limit`, then `.reverse()` back to
chronological order. -/
def getMessageHistory (st : ToolState) (u c : String) (limit : Nat) : List HistoryRow :=
  ((sortDesc (st.history.filter (pairMatch u c))).take limit).reverse

/-- embeds `cleanOldHistory` (source lines 598-613): DELETE the rows of the
pair whose id is not among the `keepLast` most recent by created_at. -/
def cleanOldHistory (st : ToolState) (u c : String) (keepLast : Nat) : ToolState × List Effect :=
  let keepIds := ((sortDesc (st.history.filter (pairMatch u c))).take keepLast).map
    (fun r => r.id)
  ({ st with
      history := st.history.filter (fun r => !(pairMatch u c r) || keepIds.contains r.id) },
   [Effect.dbPruneHistory u c keepLast])

/-- the sum of the eight handlers' success payloads. -/
inductive ToolResult where
  | reply (r : ReplyOk)
  | memGot (r : MemGetOk)
  | memSaved (r : MemSaveOk)
  | userInfo (r : UserInfoOk)
  | time (r : TimeOk)
  | weather (r : WeatherOk)
  | server (r : ServerInfoOk)
  | cleared (r : ClearOk)
deriving DecidableEq

/-- injects a handler outcome into the dispatcher outcome. -/
def wrap {α : Type} (f : α → ToolResult) :
    Except String α × ToolState × List Effect → Except String ToolResult × ToolState × List Effect
  | (res, st, effs) => (res.map f, st, effs)

/-- embeds `executeTool` (source lines 330-354): string dispatch over the
8-name catalog; any other name fails before reaching a handler. -/
def executeTool (env : Env) (ctx : Ctx) (name : String) (args : Args) (st : ToolState) :
    Except String ToolResult × ToolState × List Effect :=
  if name = "reply_to_user" then wrap .reply (replyToUser env ctx args st)
  else if name = "get_memory" then wrap .memGot (getMemory env ctx args st)
  else if name = "save_memory" then wrap .memSaved (saveMemory env ctx args st)
  else if name = "get_user_info" then wrap .userInfo (getUserInfo env ctx args st)
  else if name = "get_time" then wrap .time (getTime env args st)
  else if name = "get_weather" then wrap .weather (getWeather env args st)
  else if name = "get_server_info" then wrap .server (getServerInfo env st)
  else if name = "clear_history" then wrap .cleared (clearHistory ctx args st)
  else (.error ("Unknown tool: " ++ name), st, [])

/-- the 8-name tool catalog (source lines 107-269). -/
def toolNames : List String :=
  ["reply_to_user", "get_memory", "save_memory", "get_user_info",
   "get_time", "get_weather", "get_server_info", "clear_history"]

/-- one role/content entry of the model conversation. -/
structure ModelMsg where
  role : String
  content : String
deriving DecidableEq

/-- a tool call emitted by the model (arguments already JSON-parsed). -/
structure ToolCallT where
  id : String
  name : String
  args : Args
deriving DecidableEq

/-- oracles for the orchestrator run: the first model response (an absent
message models the empty-choices error path; the pair is `(content,
tool_calls)`), the dispatcher outcome per tool call (its success value
JSON-stringified, per source line 299), and the finalization response
content. -/
structure OrchEnv where
  firstMessage : Option (Option String × Option (List ToolCallT))
  exec : ToolCallT → Except String String
  finalContent : Option String

/-- the turns appended for one processed tool call (source lines 290-307):
on success one assistant turn with the original content and one system
result turn; on failure one system failure turn. -/
def toolStep (env : OrchEnv) (origContent : Option String) (tc : ToolCallT) : List ModelMsg :=
  match env.exec tc with
  | .ok r => [⟨"assistant", origContent.getD ""⟩,
              ⟨"system", "Tool " ++ tc.name ++ " executed with result: " ++ r⟩]
  | .error e => [⟨"system", "Tool " ++ tc.name ++ " failed: " ++ e⟩]

/-- embeds `generateResponse` (source lines 271-328), with the model as an
oracle.  Returns the result, the final conversation list, and the number of
model calls made.  The tool branch is taken exactly when the response has a
`tool_calls` field and a context was supplied, mirroring the truthiness
test `choice.message.tool_calls && context`. -/
def generateResponse (env : OrchEnv) (msgs : List ModelMsg) (hasCtx : Bool) :
    Except String String × List ModelMsg × Nat :=
  match env.firstMessage with
  | none => (.error "No response from OpenAI", msgs, 1)
  | some (content, toolCalls) =>
    match toolCalls, hasCtx with
    | some tcs, true =>
      (.ok (env.finalContent.getD ""), msgs ++ (tcs.map (toolStep env content)).flatten, 2)
    | some _, false => (.ok (content.getD ""), msgs, 1)
    | none, _ => (.ok (content.getD ""), msgs, 1)

/-! ### Concrete fixtures used by witnesses and counterexamples -/

/-- a concrete oracle environment: all sends succeed, the memory store is
empty and rejects null inserts, no guild context, a fixed clock rendering. -/
def env0 : Env where
  sendFail := fun _ => none
  memSearch := fun _ _ => .ok []
  memInsert := fun _ _ => .error "null value in column violates not-null constraint"
  fetchUser := fun _ => .error "unknown user"
  ctxGuild := none
  formatTime := fun _ => .ok "01/01/2026, 00:00:00 GMT"
  nowISO := "2026-01-01T00:00:00.000Z"
  http := fun _ => .ok ⟨true, 200, none, none, none⟩

/-- a concrete environment whose every platform send fails. -/
def envDown : Env where
  sendFail := fun _ => some "network down"
  memSearch := fun _ _ => .ok []
  memInsert := fun _ _ => .error "null value in column violates not-null constraint"
  fetchUser := fun _ => .error "unknown user"
  ctxGuild := none
  formatTime := fun _ => .ok "01/01/2026, 00:00:00 GMT"
  nowISO := "2026-01-01T00:00:00.000Z"
  http := fun _ => .ok ⟨true, 200, none, none, none⟩

/-- a concrete execution context: user 42 in channel chan1. -/
def ctx0 : Ctx := ⟨⟨"42", "alice", "0", none, false⟩, "chan1"⟩

/-- an empty initial state at time 100000. -/
def st0 : ToolState := ⟨[], 1, [], 100000⟩

/-! ### C4 / C5: the orchestrator loop -/

/-- C4: for a model response carrying tool calls (and a supplied context),
the orchestrator processes the calls sequentially, appending per successful
call one assistant turn (the original content, possibly empty) plus one
system result turn, and per failing call one system failure turn, then makes
exactly one finalization model call (two model calls in total) and returns
its content; every failing call's failure text is present in the resulting
intermediate conversation. -/
theorem C4_sequential_tools_one_finalization (env : OrchEnv) (msgs : List ModelMsg)
    (content : Option String) (tcs : List ToolCallT)
    (h : env.firstMessage = some (content, some tcs)) (hn : 0 < tcs.length) :
    generateResponse env msgs true =
      (.ok (env.finalContent.getD ""), msgs ++ (tcs.map (toolStep env content)).flatten, 2) ∧
    ∀ tc e, tc ∈ tcs → env.exec tc = .error e →
      (⟨"system", "Tool " ++ tc.name ++ " failed: " ++ e⟩ : ModelMsg) ∈
        (generateResponse env msgs true).2.1 := by
  constructor
  · simp [generateResponse, h]
  · intro tc e htc hex
    simp only [generateResponse, h]
    apply List.mem_append_right
    apply List.mem_flatten_of_mem (List.mem_map_of_mem _ htc)
    simp [toolStep, hex]

/-- C5: a model response carrying no tool calls has its content returned
unchanged, with exactly one model call and the conversation untouched. -/
theorem C5_no_tool_calls_passthrough (env : OrchEnv) (msgs : List ModelMsg) (hasCtx : Bool)
    (c : String) (h : env.firstMessage = some (some c, none)) :
    generateResponse env msgs hasCtx = (.ok c, msgs, 1) := by
  simp [generateResponse, h]

/-- a tool call that will fail in `envC4`. -/
def tcFail : ToolCallT := ⟨"1", "get_weather", {}⟩

/-- a tool call that will succeed in `envC4`. -/
def tcOk : ToolCallT := ⟨"2", "get_time", {}⟩

/-- an orchestrator environment with two tool calls, the first failing. -/
def envC4 : OrchEnv where
  firstMessage := some (some "thinking", some [tcFail, tcOk])
  exec := fun tc => if tc.id == "1" then .error "boom" else .ok "ok42"
  finalContent := some "done"

theorem C4_witness :
    generateResponse envC4 [] true =
      (.ok "done",
       [⟨"system", "Tool get_weather failed: boom"⟩,
        ⟨"assistant", "thinking"⟩,
        ⟨"system", "Tool get_time executed with result: ok42"⟩], 2) ∧
    (⟨"system", "Tool get_weather failed: boom"⟩ : ModelMsg) ∈
      (generateResponse envC4 [] true).2.1 := by
  constructor
  · exact (C4_sequential_tools_one_finalization envC4 [] (some "thinking") [tcFail, tcOk]
      rfl (by decide)).1
  · exact (C4_sequential_tools_one_finalization envC4 [] (some "thinking") [tcFail, tcOk]
      rfl (by decide)).2 tcFail "boom" (List.mem_cons_self _ _) rfl

/-- an orchestrator environment answering with plain content, no tool calls. -/
def envC5 : OrchEnv where
  firstMessage := some (some "hello", none)
  exec := fun _ => .ok ""
  finalContent := some "unused"

theorem C5_witness : generateResponse envC5 [] true = (.ok "hello", [], 1) :=
  C5_no_tool_calls_passthrough envC5 [] true "hello" rfl

/-! ### C6: unknown tool dispatch -/

/-- C6: dispatching any tool name outside the 8-name catalog fails with the
UnknownTool error, leaves the state unchanged and produces no side effect. -/
theorem C6_unknown_tool_no_side_effect (env : Env) (ctx : Ctx) (args : Args) (st : ToolState)
    (name : String) (h : name ∉ toolNames) :
    executeTool env ctx name args st = (.error ("Unknown tool: " ++ name), st, []) := by
  simp only [toolNames, List.mem_cons, List.not_mem_nil, or_false, not_or] at h
  obtain ⟨h1, h2, h3, h4, h5, h6, h7, h8⟩ := h
  simp [executeTool, h1, h2, h3, h4, h5, h6, h7, h8]

theorem C6_witness :
    executeTool env0 ctx0 "frobnicate" {} st0 = (.error "Unknown tool: frobnicate", st0, []) :=
  C6_unknown_tool_no_side_effect env0 ctx0 {} st0 "frobnicate" (by decide)

/-! ### C7: clear_history confirmation -/

/-- C7: `clear_history` with `confirm` false or absent fails with the
ConfirmationRequired error and deletes nothing; with `confirm` true it
deletes exactly the History Store rows of the (user, channel) pair and
returns their count. -/
theorem C7_clear_history_confirmation (ctx : Ctx) (args : Args) (st : ToolState) :
    ((args.confirm = none ∨ args.confirm = some false) →
      clearHistory ctx args st = (.error "History clearing requires confirmation", st, [])) ∧
    (args.confirm = some true →
      clearHistory ctx args st =
        (.ok ⟨(st.history.filter (pairMatch ctx.user.id ctx.channelId)).length,
            ctx.user.id, ctx.channelId⟩,
         { st with
            history := st.history.filter (fun r => !(pairMatch ctx.user.id ctx.channelId r)) },
         [Effect.dbDeleteHistory ctx.user.id ctx.channelId])) := by
  constructor
  · rintro (h | h) <;> simp [clearHistory, h]
  · intro h; simp [clearHistory, h]

/-- a state holding three rows, two of them for the pair (42, chan1). -/
def stC7 : ToolState :=
  ⟨[⟨1, "42", "chan1", "user", "hi", 10⟩,
    ⟨2, "42", "chan2", "user", "elsewhere", 11⟩,
    ⟨3, "42", "chan1", "assistant", "yo", 12⟩], 4, [], 100000⟩

theorem C7_witness :
    clearHistory ctx0 { confirm := some false } stC7 =
      (.error "History clearing requires confirmation", stC7, []) ∧
    clearHistory ctx0 { confirm := some true } stC7 =
      (.ok ⟨2, "42", "chan1"⟩,
       ⟨[⟨2, "42", "chan2", "user", "elsewhere", 11⟩], 4, [], 100000⟩,
       [Effect.dbDeleteHistory "42" "chan1"]) := by
  constructor
  · exact (C7_clear_history_confirmation ctx0 { confirm := some false } stC7).1 (Or.inr rfl)
  · exact (C7_clear_history_confirmation ctx0 { confirm := some true } stC7).2 rfl

/-! ### C2 / C10: the reply cooldown gate -/

/-- `Map.get` after `Map.set` at the same key yields the new entry. -/
theorem mapGet_mapSet (m : List (String × CooldownEntry)) (k : String) (v : CooldownEntry) :
    mapGet (mapSet m k v) k = some v := by
  simp [mapGet, mapSet, List.find?]

/-- the send loop never touches the cooldown map. -/
theorem sendLoop_cooldowns (env : Env) (ctx : Ctx) (i : Nat) (l : List NormMsg)
    (st : ToolState) : (sendLoop env ctx i l st).2.1.cooldowns = st.cooldowns := by
  induction l generalizing i st with
  | nil => rfl
  | cons m rest ih =>
    simp only [sendLoop]
    cases env.sendFail i with
    | some e => rfl
    | none =>
      have h1 : (saveMessageToHistory ctx st "assistant" m.content).1.cooldowns = st.cooldowns := by
        cases m.content <;> rfl
      simpa [h1] using ih (i + 1) (saveMessageToHistory ctx st "assistant" m.content).1

/-- the send loop's verdict does not depend on the incoming state. -/
theorem sendLoop_result_const (env : Env) (ctx : Ctx) (i : Nat) (l : List NormMsg)
    (st st' : ToolState) : (sendLoop env ctx i l st).1 = (sendLoop env ctx i l st').1 := by
  induction l generalizing i st st' with
  | nil => rfl
  | cons m rest ih =>
    simp only [sendLoop]
    cases env.sendFail i with
    | some e => rfl
    | none =>
      simp only []
      rw [ih (i + 1) (saveMessageToHistory ctx st "assistant" m.content).1
        (saveMessageToHistory ctx st' "assistant" m.content).1]

/-- a passing gate records the present time under `reply_<user>`. -/
theorem checkCooldownGate_pass (st : ToolState) (uid : String) (count : Nat)
    (hlen : 1 < count)
    (hge : ∀ e, mapGet st.cooldowns ("reply_" ++ uid) = some e → 2000 ≤ st.now - e.lastUsed) :
    checkCooldownGate st uid count =
      .ok { st with cooldowns := mapSet st.cooldowns ("reply_" ++ uid) ⟨uid, st.now⟩ } := by
  unfold checkCooldownGate
  rw [if_pos hlen]
  cases hmg : mapGet st.cooldowns ("reply_" ++ uid) with
  | none => rfl
  | some e =>
    have h2 : ¬ st.now - e.lastUsed < 2000 := by
      have := hge e hmg
      omega
    simp [h2]

/-- C2: the multi-message rate-limit gate of `reply_to_user`.  (i) With more
than one normalized entry and less than 2000ms elapsed since the per-user
key's last use, the call fails reporting `ceil((2000 - elapsed) / 1000)`
seconds, with no side effect and no state change.  (ii) With more than one
entry and the gate passing (no entry, or at least 2000ms elapsed), the
present time is recorded as the key's last-used time.  (iii) A call whose
normalized list has exactly one entry is never gated: the cooldown map is
neither read (the verdict is the same as with an empty map) nor written. -/
theorem C2_reply_rate_limit (env : Env) (ctx : Ctx) (args : Args) (st : ToolState)
    (payload : MessagesPayload) (hm : args.messages = some payload) :
    (∀ e, mapGet st.cooldowns ("reply_" ++ ctx.user.id) = some e →
      1 < (normalizeMessages payload).length →
      st.now - e.lastUsed < 2000 →
      replyToUser env ctx args st =
        (.error ("Please wait " ++ toString (ceilDiv (2000 - (st.now - e.lastUsed)) 1000) ++
          " seconds before sending multiple messages again."), st, [])) ∧
    (1 < (normalizeMessages payload).length →
      (∀ e, mapGet st.cooldowns ("reply_" ++ ctx.user.id) = some e →
        2000 ≤ st.now - e.lastUsed) →
      mapGet (replyToUser env ctx args st).2.1.cooldowns ("reply_" ++ ctx.user.id) =
        some ⟨ctx.user.id, st.now⟩) ∧
    ((normalizeMessages payload).length = 1 →
      (replyToUser env ctx args st).2.1.cooldowns = st.cooldowns ∧
      (replyToUser env ctx args st).1 =
        (replyToUser env ctx args { st with cooldowns := [] }).1) := by
  refine ⟨?_, ?_, ?_⟩
  · intro e he hlen hlt
    simp [replyToUser, hm, checkCooldownGate, hlen, he, hlt]
  · intro hlen hge
    simp only [replyToUser, hm, checkCooldownGate_pass st ctx.user.id _ hlen hge]
    rw [sendLoop_cooldowns, mapGet_mapSet]
  · intro hlen1
    have hgate : ∀ s : ToolState,
        checkCooldownGate s ctx.user.id (normalizeMessages payload).length = .ok s := by
      intro s
      unfold checkCooldownGate
      rw [hlen1, if_neg (by omega)]
    constructor
    · simp only [replyToUser, hm, hgate st]
      exact sendLoop_cooldowns env ctx 0 (normalizeMessages payload) st
    · simp only [replyToUser, hm, hgate st, hgate { st with cooldowns := [] }]
      rw [sendLoop_result_const env ctx 0 (normalizeMessages payload) st
        { st with cooldowns := [] }]

/-- a state whose reply key for user 42 was last used 1000ms ago. -/
def stGate : ToolState := ⟨[], 1, [("reply_42", ⟨"42", 99000⟩)], 100000⟩

/-- a two-entry reply payload. -/
def payloadAB : MessagesPayload := .arr [.str "a", .str "b"]

/-- a one-entry reply payload. -/
def payloadHi : MessagesPayload := .str "hi"

theorem C2_witness :
    replyToUser env0 ctx0 { messages := some payloadAB } stGate =
      (.error "Please wait 1 seconds before sending multiple messages again.", stGate, []) ∧
    mapGet (replyToUser env0 ctx0 { messages := some payloadAB } st0).2.1.cooldowns
      "reply_42" = some ⟨"42", 100000⟩ ∧
    (replyToUser env0 ctx0 { messages := some payloadHi } stGate).2.1.cooldowns =
      stGate.cooldowns := by
  refine ⟨?_, ?_, ?_⟩
  · exact (C2_reply_rate_limit env0 ctx0 { messages := some payloadAB } stGate payloadAB
      rfl).1 ⟨"42", 99000⟩ rfl (by decide) (by decide)
  · exact (C2_reply_rate_limit env0 ctx0 { messages := some payloadAB } st0 payloadAB
      rfl).2.1 (by decide) (fun e h => nomatch h)
  · exact ((C2_reply_rate_limit env0 ctx0 { messages := some payloadHi } stGate payloadHi
      rfl).2.2 (by decide)).1

/-- C10: for a multi-entry `reply_to_user` call that passes the rate-limit
gate, the cooldown entry for the user is written before the timeout and the
sends, so it holds in the resulting state for every send-outcome oracle —
including oracles under which the first send already fails — and is not
rolled back on error; consequently a retry within 2000ms on the resulting
state fails with the RateLimited error and sends nothing. -/
theorem C10_cooldown_consumed_on_failure (env env2 : Env) (ctx : Ctx) (args args2 : Args)
    (st : ToolState) (payload payload2 : MessagesPayload)
    (hm : args.messages = some payload) (hmulti : 1 < (normalizeMessages payload).length)
    (hge : ∀ e, mapGet st.cooldowns ("reply_" ++ ctx.user.id) = some e →
      2000 ≤ st.now - e.lastUsed) :
    mapGet (replyToUser env ctx args st).2.1.cooldowns ("reply_" ++ ctx.user.id) =
      some ⟨ctx.user.id, st.now⟩ ∧
    (∀ now2 : Nat, now2 - st.now < 2000 →
      args2.messages = some payload2 → 1 < (normalizeMessages payload2).length →
      replyToUser env2 ctx args2 { (replyToUser env ctx args st).2.1 with now := now2 } =
        (.error ("Please wait " ++ toString (ceilDiv (2000 - (now2 - st.now)) 1000) ++
          " seconds before sending multiple messages again."),
         { (replyToUser env ctx args st).2.1 with now := now2 }, [])) := by
  have hkey : mapGet (replyToUser env ctx args st).2.1.cooldowns ("reply_" ++ ctx.user.id) =
      some ⟨ctx.user.id, st.now⟩ := by
    simp only [replyToUser, hm, checkCooldownGate_pass st ctx.user.id _ hmulti hge]
    rw [sendLoop_cooldowns, mapGet_mapSet]
  refine ⟨hkey, ?_⟩
  intro now2 hlt hm2 hlen2
  generalize (replyToUser env ctx args st).2.1 = stR at hkey ⊢
  simp [replyToUser, hm2, checkCooldownGate, hlen2, hkey, hlt]

theorem C10_witness :
    replyToUser envDown ctx0 { messages := some payloadAB } st0 =
      (.error "network down", ⟨[], 1, [("reply_42", ⟨"42", 100000⟩)], 100000⟩,
       [Effect.platformReply (some "a") false]) ∧
    mapGet (replyToUser envDown ctx0 { messages := some payloadAB } st0).2.1.cooldowns
      "reply_42" = some ⟨"42", 100000⟩ ∧
    replyToUser env0 ctx0 { messages := some payloadAB }
      { (replyToUser envDown ctx0 { messages := some payloadAB } st0).2.1 with now := 101000 } =
      (.error "Please wait 1 seconds before sending multiple messages again.",
       { (replyToUser envDown ctx0 { messages := some payloadAB } st0).2.1 with now := 101000 },
       []) := by
  refine ⟨rfl, ?_, ?_⟩
  · exact (C10_cooldown_consumed_on_failure envDown env0 ctx0
      { messages := some payloadAB } { messages := some payloadAB } st0 payloadAB payloadAB
      rfl (by decide) (fun e h => nomatch h)).1
  · exact (C10_cooldown_consumed_on_failure envDown env0 ctx0
      { messages := some payloadAB } { messages := some payloadAB } st0 payloadAB payloadAB
      rfl (by decide) (fun e h => nomatch h)).2 101000 (by decide) rfl (by decide)

/-! ### C1: argument validation before side effects -/

/-- `save_memory` always issues its INSERT, whatever the arguments. -/
theorem saveMemory_effects (env : Env) (ctx : Ctx) (args : Args) (st : ToolState) :
    (saveMemory env ctx args st).2.2 =
      [Effect.dbInsertMemory (args.user_id.getD ctx.user.id) args.keywords args.content] := by
  unfold saveMemory
  dsimp only
  split
  · rfl
  · split <;> rfl

/-- `get_memory` always issues its search query, whatever the arguments. -/
theorem getMemory_effects (env : Env) (ctx : Ctx) (args : Args) (st : ToolState) :
    (getMemory env ctx args st).2.2 =
      [Effect.dbSearchMemory (args.user_id.getD ctx.user.id) args.keywords] := by
  unfold getMemory
  dsimp only
  split <;> rfl

/-- `get_weather` always issues its HTTP GET, whatever the arguments. -/
theorem getWeather_effects (env : Env) (args : Args) (st : ToolState) :
    (getWeather env args st).2.2 =
      [Effect.httpGet
        ("https://wttr.in/" ++ encodeURIComponent (jsToString args.city) ++ "?format=j1")] := by
  unfold getWeather
  dsimp only
  split
  · rfl
  · split <;> rfl

/-- C1 counterexample: with the required `city` field missing, `get_weather`
does not fail with a validation error before its side effect — it performs
the HTTP GET (to the literal URL wttr.in/undefined) and here even succeeds. -/
theorem C1_counterexample :
    (getWeather env0 {} st0).2.2 = [Effect.httpGet "https://wttr.in/undefined?format=j1"] ∧
    (getWeather env0 {} st0).1 = .ok ⟨none, none, none, none⟩ :=
  ⟨rfl, rfl⟩

/-- C1 (amended): only `reply_to_user` and `clear_history` check their
required fields before any side effect; the remaining handlers do not
validate: `save_memory` and `get_memory` issue their store query with the
missing field passed through as null, `get_weather` issues the HTTP request
with the literal city text "undefined", and `get_time` queries the
formatter with no timezone (succeeding on the host default). -/
theorem C1_amended_partial_validation :
    (∀ (env : Env) (ctx : Ctx) (st : ToolState) (args : Args), args.messages = none →
      replyToUser env ctx args st =
        (.error "Messages must be a string or array of message objects", st, [])) ∧
    (∀ (ctx : Ctx) (st : ToolState) (args : Args), args.confirm = none →
      clearHistory ctx args st = (.error "History clearing requires confirmation", st, [])) ∧
    (∀ (env : Env) (ctx : Ctx) (st : ToolState) (args : Args), args.keywords = none →
      (saveMemory env ctx args st).2.2 =
        [Effect.dbInsertMemory (args.user_id.getD ctx.user.id) none args.content]) ∧
    (∀ (env : Env) (ctx : Ctx) (st : ToolState) (args : Args), args.keywords = none →
      (getMemory env ctx args st).2.2 =
        [Effect.dbSearchMemory (args.user_id.getD ctx.user.id) none]) ∧
    (∀ (env : Env) (st : ToolState) (args : Args), args.city = none →
      (getWeather env args st).2.2 = [Effect.httpGet "https://wttr.in/undefined?format=j1"]) ∧
    (∀ (env : Env) (st : ToolState) (args : Args) (s : String),
      args.timezone = none → env.formatTime none = .ok s →
      (getTime env args st).1 = .ok ⟨none, s, env.nowISO, st.now⟩) := by
  refine ⟨?_, ?_, ?_, ?_, ?_, ?_⟩
  · intro env ctx st args h
    simp [replyToUser, h]
  · intro ctx st args h
    simp [clearHistory, h]
  · intro env ctx st args h
    rw [saveMemory_effects, h]
  · intro env ctx st args h
    rw [getMemory_effects, h]
  · intro env st args h
    rw [getWeather_effects, h]
    rfl
  · intro env st args s h h2
    simp [getTime, h, h2]

theorem C1_witness :
    replyToUser env0 ctx0 {} st0 =
      (.error "Messages must be a string or array of message objects", st0, []) ∧
    clearHistory ctx0 {} st0 = (.error "History clearing requires confirmation", st0, []) ∧
    (saveMemory env0 ctx0 {} st0).2.2 = [Effect.dbInsertMemory "42" none none] ∧
    (getMemory env0 ctx0 {} st0).2.2 = [Effect.dbSearchMemory "42" none] ∧
    (getWeather env0 {} st0).2.2 = [Effect.httpGet "https://wttr.in/undefined?format=j1"] ∧
    (getTime env0 {} st0).1 =
      .ok ⟨none, "01/01/2026, 00:00:00 GMT", "2026-01-01T00:00:00.000Z", 100000⟩ := by
  refine ⟨?_, ?_, ?_, ?_, ?_, ?_⟩
  · exact C1_amended_partial_validation.1 env0 ctx0 st0 {} rfl
  · exact C1_amended_partial_validation.2.1 ctx0 st0 {} rfl
  · exact C1_amended_partial_validation.2.2.1 env0 ctx0 st0 {} rfl
  · exact C1_amended_partial_validation.2.2.2.1 env0 ctx0 st0 {} rfl
  · exact C1_amended_partial_validation.2.2.2.2.1 env0 st0 {} rfl
  · exact C1_amended_partial_validation.2.2.2.2.2 env0 st0 {} "01/01/2026, 00:00:00 GMT" rfl rfl

/-! ### C3: reply normalization -/

/-- C3 counterexample: an object entry with an explicitly set delay of 0 at
a positive index does not keep its delay — the JS `||` in
`msg.cooldown || (index > 0 ? 1000 : 0)` treats 0 as falsy, so the 1000ms
default is applied instead of the explicit 0. -/
theorem C3_counterexample :
    (normalizeMessages (.arr [.obj (some "a") none, .obj (some "b") (some 0)])).map
      (fun m => m.cooldown) = [0, 1000] ∧
    (normalizeMessages (.arr [.obj (some "a") none, .obj (some "b") (some 0)])).map
      (fun m => m.cooldown) ≠ [0, 0] := by
  constructor <;> decide

/-- C3 (amended): a bare string payload becomes one message with 0ms delay;
a string entry at index `i` gets the default delay (0 first, 1000 after); an
object entry keeps its explicitly set delay when that delay is nonzero,
while an omitted or explicitly zero delay gets the default; and the payload
["a","b","c"] yields delays [0,1000,1000] and, when all sends succeed and
the gate passes, persists 3 assistant turns to the History Store in send
order. -/
theorem C3_normalization_amended :
    (∀ s, normalizeMessages (.str s) = [⟨some s, 0⟩]) ∧
    (∀ (l : List RawMsg) (i : Nat) (s : String), l[i]? = some (.str s) →
      (normalizeMessages (.arr l))[i]? = some ⟨some s, defaultCooldown i⟩) ∧
    (∀ (l : List RawMsg) (i : Nat) (c : Option String) (v : Nat),
      l[i]? = some (.obj c (some v)) → v ≠ 0 →
      (normalizeMessages (.arr l))[i]? = some ⟨c, v⟩) ∧
    (∀ (l : List RawMsg) (i : Nat) (c : Option String),
      l[i]? = some (.obj c none) ∨ l[i]? = some (.obj c (some 0)) →
      (normalizeMessages (.arr l))[i]? = some ⟨c, defaultCooldown i⟩) ∧
    (∀ (env : Env) (ctx : Ctx) (st : ToolState),
      (∀ i, env.sendFail i = none) →
      mapGet st.cooldowns ("reply_" ++ ctx.user.id) = none →
      (normalizeMessages (.arr [.str "a", .str "b", .str "c"])).map (fun m => m.cooldown) =
        [0, 1000, 1000] ∧
      (replyToUser env ctx { messages := some (.arr [.str "a", .str "b", .str "c"]) }
          st).2.1.history =
        st.history ++
          [⟨st.nextHistoryId, ctx.user.id, ctx.channelId, "assistant", "a", st.now⟩,
           ⟨st.nextHistoryId + 1, ctx.user.id, ctx.channelId, "assistant", "b", st.now⟩,
           ⟨st.nextHistoryId + 2, ctx.user.id, ctx.channelId, "assistant", "c", st.now⟩]) := by
  refine ⟨fun s => rfl, ?_, ?_, ?_, ?_⟩
  · intro l i s h
    simp [normalizeMessages, List.getElem?_enum, h, normalizeOne]
  · intro l i c v h hv
    simp [normalizeMessages, List.getElem?_enum, h, normalizeOne, hv]
  · intro l i c h
    rcases h with h | h <;> simp [normalizeMessages, List.getElem?_enum, h, normalizeOne]
  · intro env ctx st hsend hmg
    have hnorm : normalizeMessages (.arr [.str "a", .str "b", .str "c"]) =
        [⟨some "a", 0⟩, ⟨some "b", 1000⟩, ⟨some "c", 1000⟩] := rfl
    refine ⟨by decide, ?_⟩
    have hgate : checkCooldownGate st ctx.user.id
        ([⟨some "a", 0⟩, ⟨some "b", 1000⟩, ⟨some "c", 1000⟩] : List NormMsg).length =
        .ok { st with
          cooldowns := mapSet st.cooldowns ("reply_" ++ ctx.user.id) ⟨ctx.user.id, st.now⟩ } := by
      apply checkCooldownGate_pass
      · decide
      · intro e he
        rw [hmg] at he
        exact Option.noConfusion he
    simp only [replyToUser, hnorm]
    rw [hgate]
    simp only [sendLoop, hsend 0, hsend 1, hsend 2, saveMessageToHistory]
    simp [List.append_assoc]

theorem C3_witness :
    (normalizeMessages (.arr [.str "a", .str "b", .str "c"])).map (fun m => m.cooldown) =
      [0, 1000, 1000] ∧
    (replyToUser env0 ctx0 { messages := some (.arr [.str "a", .str "b", .str "c"]) }
        st0).2.1.history =
      [⟨1, "42", "chan1", "assistant", "a", 100000⟩,
       ⟨2, "42", "chan1", "assistant", "b", 100000⟩,
       ⟨3, "42", "chan1", "assistant", "c", 100000⟩] := by
  have h := C3_normalization_amended.2.2.2.2 env0 ctx0 st0 (fun i => rfl) rfl
  exact ⟨h.1, h.2⟩

/-! ### C8 / C9: history fetch and pruning -/

/-- inserting an element smaller than every list element lands at the end. -/
theorem insertDesc_of_lt (r : HistoryRow) (l : List HistoryRow)
    (h : ∀ x ∈ l, r.created_at < x.created_at) : insertDesc r l = l ++ [r] := by
  induction l with
  | nil => rfl
  | cons x xs ih =>
    have hx := h x (List.mem_cons_self x xs)
    simp only [insertDesc]
    rw [if_neg (by omega), ih (fun y hy => h y (List.mem_cons_of_mem x hy))]
    rfl

/-- on a strictly ascending list, the descending sort is plain reversal. -/
theorem sortDesc_of_pairwise_lt (l : List HistoryRow)
    (h : l.Pairwise (fun a b => a.created_at < b.created_at)) :
    sortDesc l = l.reverse := by
  induction l with
  | nil => rfl
  | cons x xs ih =>
    rw [List.pairwise_cons] at h
    simp only [sortDesc]
    rw [ih h.2, insertDesc_of_lt x xs.reverse (fun y hy => h.1 y (List.mem_reverse.mp hy)),
      List.reverse_cons]

/-- the reversed `take k` of a reversed list is the `drop (length - k)`. -/
theorem reverse_take_reverse {α : Type} (l : List α) (k : Nat) :
    (l.reverse.take k).reverse = l.drop (l.length - k) := by
  induction l with
  | nil => simp
  | cons x xs ih =>
    rw [List.reverse_cons]
    by_cases hk : k ≤ xs.length
    · rw [List.take_append_of_le_length (by simpa using hk), ih]
      have h1 : (x :: xs).length - k = (xs.length - k) + 1 := by
        simp only [List.length_cons]
        omega
      rw [h1, List.drop_succ_cons]
    · rw [List.take_of_length_le (by simp; omega)]
      have h1 : (x :: xs).length - k = 0 := by
        simp only [List.length_cons]
        omega
      rw [h1, List.drop_zero]
      simp

/-- filtering by membership of the ids of a `drop` recovers that `drop`,
provided the ids are distinct. -/
theorem filter_contains_drop (ids : List Nat) :
    ∀ (l : List HistoryRow) (n : Nat),
      (l.map (fun r => r.id)).Nodup →
      (∀ a, ids.contains a = true ↔ a ∈ (l.drop n).map (fun r => r.id)) →
      l.filter (fun r => ids.contains r.id) = l.drop n := by
  intro l
  induction l with
  | nil =>
    intro n _ _
    simp
  | cons x xs ih =>
    intro n hnd hids
    cases n with
    | zero =>
      rw [List.drop_zero]
      apply List.filter_eq_self.mpr
      intro a ha
      exact (hids a.id).mpr (by simpa using List.mem_map_of_mem (fun r => r.id) ha)
    | succ n =>
      rw [List.map_cons, List.nodup_cons] at hnd
      have hxf : ¬ (ids.contains x.id = true) := by
        intro hc
        have hmem := (hids x.id).mp hc
        rw [List.drop_succ_cons] at hmem
        exact hnd.1 (List.Sublist.subset ((List.drop_sublist n xs).map (fun r => r.id)) hmem)
      rw [List.drop_succ_cons,
        List.filter_cons_of_neg (p := fun (r : HistoryRow) => ids.contains r.id) hxf]
      apply ih n hnd.2
      intro a
      rw [hids a, List.drop_succ_cons]

/-- the rows kept by `cleanOldHistory`, spelled out. -/
theorem cleanOldHistory_history (st : ToolState) (u c : String) (keepLast : Nat) :
    (cleanOldHistory st u c keepLast).1.history =
      st.history.filter (fun r => !(pairMatch u c r) ||
        (((sortDesc (st.history.filter (pairMatch u c))).take keepLast).map
          (fun x => x.id)).contains r.id) := rfl

/-- C8: with the rows of the (user, channel) pair strictly ascending by
`created_at` (the append-only store invariant), `getMessageHistory` returns
the `limit` most recent turns of the pair re-ordered to ascending
chronological order — that is, the final `limit`-suffix of the pair's rows. -/
theorem C8_fetch_recent_ascending (st : ToolState) (u c : String) (limit : Nat)
    (h : (st.history.filter (pairMatch u c)).Pairwise
      (fun a b => a.created_at < b.created_at)) :
    getMessageHistory st u c limit =
      (st.history.filter (pairMatch u c)).drop
        ((st.history.filter (pairMatch u c)).length - limit) := by
  unfold getMessageHistory
  rw [sortDesc_of_pairwise_lt _ h, reverse_take_reverse]

/-- a history of ten rows for the pair (42, chan1), strictly ascending. -/
def stC8 : ToolState :=
  ⟨[⟨1, "42", "chan1", "user", "m1", 101⟩, ⟨2, "42", "chan1", "assistant", "m2", 102⟩,
    ⟨3, "42", "chan1", "user", "m3", 103⟩, ⟨4, "42", "chan1", "assistant", "m4", 104⟩,
    ⟨5, "42", "chan1", "user", "m5", 105⟩, ⟨6, "42", "chan1", "assistant", "m6", 106⟩,
    ⟨7, "42", "chan1", "user", "m7", 107⟩, ⟨8, "42", "chan1", "assistant", "m8", 108⟩,
    ⟨9, "42", "chan1", "user", "m9", 109⟩, ⟨10, "42", "chan1", "assistant", "m10", 110⟩],
   11, [], 200000⟩

theorem C8_witness :
    (stC8.history.filter (pairMatch "42" "chan1")).Pairwise
      (fun a b => a.created_at < b.created_at) ∧
    getMessageHistory stC8 "42" "chan1" 8 =
      [⟨3, "42", "chan1", "user", "m3", 103⟩, ⟨4, "42", "chan1", "assistant", "m4", 104⟩,
       ⟨5, "42", "chan1", "user", "m5", 105⟩, ⟨6, "42", "chan1", "assistant", "m6", 106⟩,
       ⟨7, "42", "chan1", "user", "m7", 107⟩, ⟨8, "42", "chan1", "assistant", "m8", 108⟩,
       ⟨9, "42", "chan1", "user", "m9", 109⟩, ⟨10, "42", "chan1", "assistant", "m10", 110⟩] := by
  refine ⟨by decide, ?_⟩
  exact (C8_fetch_recent_ascending stC8 "42" "chan1" 8 (by decide)).trans (by decide)

/-- C9: with the pair's rows strictly ascending by `created_at` and globally
distinct ids (SERIAL PRIMARY KEY), pruning keeps exactly the `keepLast` most
recent rows of the (user, channel) pair, leaves the rows of every other pair
untouched, and leaves at most `keepLast` rows for the pair. -/
theorem C9_prune_keeps_recent (st : ToolState) (u c : String) (keepLast : Nat)
    (hasc : (st.history.filter (pairMatch u c)).Pairwise
      (fun a b => a.created_at < b.created_at))
    (hids : (st.history.map (fun r => r.id)).Nodup) :
    ((cleanOldHistory st u c keepLast).1.history.filter (pairMatch u c) =
      (st.history.filter (pairMatch u c)).drop
        ((st.history.filter (pairMatch u c)).length - keepLast)) ∧
    ((cleanOldHistory st u c keepLast).1.history.filter (fun r => !(pairMatch u c r)) =
      st.history.filter (fun r => !(pairMatch u c r))) ∧
    ((cleanOldHistory st u c keepLast).1.history.filter (pairMatch u c)).length ≤ keepLast := by
  have hsort := sortDesc_of_pairwise_lt _ hasc
  have htake : (sortDesc (st.history.filter (pairMatch u c))).take keepLast =
      ((st.history.filter (pairMatch u c)).drop
        ((st.history.filter (pairMatch u c)).length - keepLast)).reverse := by
    rw [hsort, ← reverse_take_reverse (st.history.filter (pairMatch u c)) keepLast,
      List.reverse_reverse]
  have hchar : ∀ a,
      (((sortDesc (st.history.filter (pairMatch u c))).take keepLast).map
        (fun x => x.id)).contains a = true ↔
      a ∈ ((st.history.filter (pairMatch u c)).drop
        ((st.history.filter (pairMatch u c)).length - keepLast)).map (fun r => r.id) := by
    intro a
    rw [htake, List.map_reverse]
    simp
  have hnd : ((st.history.filter (pairMatch u c)).map (fun r => r.id)).Nodup :=
    List.Nodup.sublist ((List.filter_sublist st.history).map (fun r => r.id)) hids
  have hmain := filter_contains_drop
    (((sortDesc (st.history.filter (pairMatch u c))).take keepLast).map (fun x => x.id))
    (st.history.filter (pairMatch u c))
    ((st.history.filter (pairMatch u c)).length - keepLast) hnd hchar
  have hconj1 : (cleanOldHistory st u c keepLast).1.history.filter (pairMatch u c) =
      (st.history.filter (pairMatch u c)).drop
        ((st.history.filter (pairMatch u c)).length - keepLast) := by
    rw [cleanOldHistory_history, List.filter_filter]
    rw [← hmain, List.filter_filter]
    apply List.filter_congr
    intro a _
    cases pairMatch u c a <;>
      cases (((sortDesc (st.history.filter (pairMatch u c))).take keepLast).map
        (fun x => x.id)).contains a.id <;> rfl
  refine ⟨hconj1, ?_, ?_⟩
  · rw [cleanOldHistory_history, List.filter_filter]
    apply List.filter_congr
    intro a _
    cases pairMatch u c a <;>
      cases (((sortDesc (st.history.filter (pairMatch u c))).take keepLast).map
        (fun x => x.id)).contains a.id <;> rfl
  · rw [hconj1, List.length_drop]
    omega

/-- a history of five pair rows plus one row of another channel. -/
def stC9 : ToolState :=
  ⟨[⟨1, "42", "chan1", "user", "m1", 101⟩, ⟨2, "42", "chan1", "assistant", "m2", 102⟩,
    ⟨3, "42", "chan1", "user", "m3", 103⟩, ⟨4, "42", "chan1", "assistant", "m4", 104⟩,
    ⟨5, "42", "chan1", "user", "m5", 105⟩, ⟨6, "7", "chan9", "user", "other", 50⟩],
   7, [], 200000⟩

theorem C9_witness :
    (cleanOldHistory stC9 "42" "chan1" 3).1.history.filter (pairMatch "42" "chan1") =
      [⟨3, "42", "chan1", "user", "m3", 103⟩, ⟨4, "42", "chan1", "assistant", "m4", 104⟩,
       ⟨5, "42", "chan1", "user", "m5", 105⟩] ∧
    (cleanOldHistory stC9 "42" "chan1" 3).1.history.filter
      (fun r => !(pairMatch "42" "chan1" r)) = [⟨6, "7", "chan9", "user", "other", 50⟩] ∧
    ((cleanOldHistory stC9 "42" "chan1" 3).1.history.filter (pairMatch "42" "chan1")).length ≤
      3 := by
  have h := C9_prune_keeps_recent stC9 "42" "chan1" 3 (by decide) (by decide)
  exact ⟨h.1.trans (by decide), h.2.1.trans (by decide), h.2.2⟩

end Weyra
